import Mathlib

/-!
Shallow embedding of the login rate-limiting and session-authentication
subsystem of the web-portfolio repository.

Source files embedded here:
* the rate limiter (`rateLimit` module: `isBlocked`, `recordFailedAttempt`,
  `recordSuccessfulLogin`, `getRateLimitInfo`, `readRateLimitData`);
* the credential and session store (`auth` module: `createUser`,
  `getSessionByToken`, `deleteSession`, `generateToken`, `verifyToken`,
  `readJsonFile`);
* the content-deletion endpoint (`src/pages/api/delete-content.ts`: the
  `POST` handler's filename validation and outcome).

Timestamps are modelled as integer milliseconds since the epoch (the
JavaScript code stores ISO strings and compares them through `Date`, whose
order and arithmetic coincide with the millisecond values).  The backing
files are modelled as explicit state: each operation takes the decoded
record list and returns the result together with the list that is written
back, so the side-effecting reads (lazy expiry) are visible in the type.
-/

namespace SiteAuth

/-! ### Rate limiter: constants and data model -/

def MAX_ATTEMPTS : Nat := 5

def WINDOW_MS : Int := 15 * 60 * 1000

def BLOCK_DURATION_MS : Int := 30 * 60 * 1000

/-- `RateLimitEntry` record: one entry per source address. -/
structure RateLimitEntry where
  ip : String
  attempts : Nat
  firstAttempt : Int
  lastAttempt : Int
  blockedUntil : Option Int
deriving DecidableEq

/-- `rateLimits.find(e => e.ip === ip)` — first entry for the address. -/
def findEntry (st : List RateLimitEntry) (a : String) : Option RateLimitEntry :=
  st.find? (fun e => e.ip == a)

/-- In-place mutation of the entry found by `find`: replace the first entry
whose `ip` matches, keep everything else in place. -/
def updateEntry (st : List RateLimitEntry) (a : String) (e' : RateLimitEntry) :
    List RateLimitEntry :=
  match st with
  | [] => []
  | e :: rest => if e.ip == a then e' :: rest else e :: updateEntry rest a e'

/-- Result object of `isBlocked`. -/
structure BlockStatus where
  blocked : Bool
  remainingTime : Option Int
deriving DecidableEq

/-- `Math.ceil((blockedUntil - now) / 1000 / 60)` for a positive
millisecond difference. -/
def ceilMinutes (ms : Int) : Int := (ms + 59999) / 60000

/-- `isBlocked(ip)`: returns the block status and the rate-limit list that
is persisted back (an expired block is pruned as a side effect of the
read). -/
def isBlocked (st : List RateLimitEntry) (a : String) (now : Int) :
    BlockStatus × List RateLimitEntry :=
  match findEntry st a with
  | none => (⟨false, none⟩, st)
  | some e =>
    match e.blockedUntil with
    | none => (⟨false, none⟩, st)
    | some b =>
      if now < b then
        (⟨true, some (ceilMinutes (b - now))⟩, st)
      else
        (⟨false, none⟩, st.filter (fun x => !(x.ip == a)))

/-- Result object of `recordFailedAttempt`. -/
structure AttemptResult where
  blocked : Bool
  attemptsLeft : Option Int
  blockedUntil : Option Int
deriving DecidableEq

/-- The tail of `recordFailedAttempt`: `if (entry.blockedUntil) … else …`. -/
def attemptOutcome (e : RateLimitEntry) : AttemptResult :=
  match e.blockedUntil with
  | some b => ⟨true, none, some b⟩
  | none => ⟨false, some ((MAX_ATTEMPTS : Int) - (e.attempts : Int)), none⟩

/-- `recordFailedAttempt(ip)`: returns the result object and the persisted
list. -/
def recordFailedAttempt (st : List RateLimitEntry) (a : String) (now : Int) :
    AttemptResult × List RateLimitEntry :=
  let windowStart := now - WINDOW_MS
  match findEntry st a with
  | none =>
    let e : RateLimitEntry := ⟨a, 1, now, now, none⟩
    (attemptOutcome e, st ++ [e])
  | some e =>
    let e' :=
      if e.firstAttempt < windowStart then
        { e with attempts := 1, firstAttempt := now, lastAttempt := now,
                 blockedUntil := none }
      else
        { e with attempts := e.attempts + 1, lastAttempt := now,
                 blockedUntil :=
                   if MAX_ATTEMPTS ≤ e.attempts + 1 then
                     some (now + BLOCK_DURATION_MS)
                   else e.blockedUntil }
    (attemptOutcome e', updateEntry st a e')

/-- `recordSuccessfulLogin(ip)`: drops every entry for the address. -/
def recordSuccessfulLogin (st : List RateLimitEntry) (a : String) :
    List RateLimitEntry :=
  st.filter (fun e => !(e.ip == a))

/-- Result object of `getRateLimitInfo`. -/
structure RateLimitInfo where
  attempts : Nat
  maxAttempts : Nat
  windowMs : Int
  attemptsLeft : Int
  resetTime : Option Int
deriving DecidableEq

/-- `getRateLimitInfo(ip)`: pure inspection, no write-back. -/
def getRateLimitInfo (st : List RateLimitEntry) (a : String) (now : Int) :
    RateLimitInfo :=
  match findEntry st a with
  | none => ⟨0, MAX_ATTEMPTS, WINDOW_MS, (MAX_ATTEMPTS : Int), none⟩
  | some e =>
    if e.firstAttempt < now - WINDOW_MS then
      ⟨0, MAX_ATTEMPTS, WINDOW_MS, (MAX_ATTEMPTS : Int), none⟩
    else
      ⟨e.attempts, MAX_ATTEMPTS, WINDOW_MS,
       max 0 ((MAX_ATTEMPTS : Int) - (e.attempts : Int)),
       some (e.firstAttempt + WINDOW_MS)⟩

/-! ### Reads of the backing JSON files

`readJsonFile` (auth module) and `readRateLimitData` (rate-limit module)
have identical error handling: a missing file yields `[]`, and a
`JSON.parse` failure is caught and yields `[]`.  The file system state is
modelled as `FileContent`; the parser (`JSON.parse` plus decoding, an
external primitive) is an explicit parameter. -/

inductive FileContent where
  | absent
  | present (data : String)
deriving DecidableEq

/-- `readJsonFile(filePath)` from the auth module. -/
def readJsonFile {α : Type} (parse : String → Except String (List α))
    (file : FileContent) : List α :=
  match file with
  | .absent => []
  | .present data =>
    match parse data with
    | .ok records => records
    | .error _ => []

/-- `readRateLimitData()` from the rate-limit module (same shape as
`readJsonFile`, specialised to rate-limit entries). -/
def readRateLimitData (parse : String → Except String (List RateLimitEntry))
    (file : FileContent) : List RateLimitEntry :=
  match file with
  | .absent => []
  | .present data =>
    match parse data with
    | .ok records => records
    | .error _ => []

/-! ### Credential and session store -/

/-- `User` record. -/
structure User where
  id : String
  username : String
  password : String
  role : String
  createdAt : Int
  updatedAt : Option Int
deriving DecidableEq

/-- `createUser(username, password, role)`: fails when the username exists,
otherwise appends a fresh record.  The generated id and the current time
are passed in explicitly (`generateId()` and `new Date()` are external
sources of freshness); the write-back is the returned list and is assumed
to succeed, which is the boolean the source returns. -/
def createUser (users : List User) (username pw role : String)
    (newId : String) (now : Int) : Bool × List User :=
  match users.find? (fun u => u.username == username) with
  | some _ => (false, users)
  | none =>
    (true, users ++ [⟨newId, username, pw, role, now, some now⟩])

/-- `Session` record. -/
structure Session where
  id : String
  userId : String
  token : String
  expiresAt : Int
  createdAt : Int
deriving DecidableEq

/-- `deleteSession(token)`: filters out every session with the token. -/
def deleteSession (sessions : List Session) (t : String) : List Session :=
  sessions.filter (fun s => !(s.token == t))

/-- `getSessionByToken(token)`: looks the session up and lazily deletes it
when expired; returns the looked-up session (or `none`) and the persisted
list. -/
def getSessionByToken (sessions : List Session) (t : String) (now : Int) :
    Option Session × List Session :=
  match sessions.find? (fun s => s.token == t) with
  | none => (none, sessions)
  | some s =>
    if s.expiresAt < now then
      (none, deleteSession sessions t)
    else
      (some s, sessions)

/-! ### JWT tokens -/

def JWT_SECRET : String := "your-secret-key-change-in-production"

/-- Payload carried by a token (`iat`/`exp` in seconds, as `jsonwebtoken`
uses). -/
structure JWTPayload where
  userId : String
  username : String
  iat : Int
  exp : Int
deriving DecidableEq

/-- A signed token: the payload plus the secret it was signed with. -/
structure SignedToken where
  payload : JWTPayload
  signedWith : String
deriving DecidableEq

inductive JwtError where
  | invalidToken
  | expired
deriving DecidableEq

/-- Modelled from the spec: the external `jsonwebtoken` library's `sign`
(not part of this repository) — a self-contained signed token encoding
the payload with `iat = now` and `exp = now + expiresIn`. -/
def jwtSign (userId username : String) (secret : String)
    (now expiresInSec : Int) : SignedToken :=
  ⟨⟨userId, username, now, now + expiresInSec⟩, secret⟩

/-- Modelled from the spec: the external `jsonwebtoken` library's `verify`
(not part of this repository) — rejects a token whose signature does not
match the secret (`JsonWebTokenError`), then one whose expiry has lapsed
(`TokenExpiredError`, raised when `now ≥ exp`), else yields the payload. -/
def jwtVerifyLib (tok : SignedToken) (secret : String) (now : Int) :
    Except JwtError JWTPayload :=
  if tok.signedWith ≠ secret then .error .invalidToken
  else if tok.payload.exp ≤ now then .error .expired
  else .ok tok.payload

/-- `generateToken(userId, username)`: `jwt.sign({userId, username},
JWT_SECRET, {expiresIn: '24h'})`. -/
def generateToken (userId username : String) (now : Int) : SignedToken :=
  jwtSign userId username JWT_SECRET now (24 * 60 * 60)

/-- `verifyToken(token)`: `try { return jwt.verify(...) } catch { return
null }` — both library failures collapse to `none`. -/
def verifyToken (tok : SignedToken) (now : Int) : Option JWTPayload :=
  match jwtVerifyLib tok JWT_SECRET now with
  | .ok p => some p
  | .error _ => none

/-! ### Content-deletion endpoint -/

/-- `sub` occurs as a contiguous sublist of `l` (JavaScript
`String.prototype.includes`). -/
def listContainsSub (sub l : List Char) : Bool :=
  match l with
  | [] => sub.isEmpty
  | _ :: t => sub.isPrefixOf l || listContainsSub sub t

/-- `s.includes(sub)` over the character sequences. -/
def strIncludes (s sub : String) : Bool :=
  listContainsSub sub.data s.data

/-- `s.endsWith(suffix)` over the character sequences. -/
def strEndsWith (s suffix : String) : Bool :=
  suffix.data.isSuffixOf s.data

/-- The combined filename allow-list check of the endpoint. -/
def validFilename (fn : String) : Bool :=
  strEndsWith fn ".mdx" &&
    !(strIncludes fn "..") && !(strIncludes fn "/") && !(strIncludes fn "\\")

/-- Outcome of the `POST` handler of `delete-content.ts`. -/
inductive DeleteOutcome where
  | unauthorized
  | missingFilename
  | invalidFileType
  | invalidFilename
  | fileNotFound
  | deleted
deriving DecidableEq

/-- The decision sequence of the `POST` handler: the two authentication
gates collapsed into `authOk`; `filename` is `formData.get('filename')`
(`none` for a missing field, and the empty string is falsy in the
`!filename` guard); `fileExists` abstracts `fs.existsSync` on the joined
path. -/
def deleteContentPost (authOk : Bool) (filename : Option String)
    (fileExists : Bool) : DeleteOutcome :=
  if !authOk then .unauthorized
  else
    match filename with
    | none => .missingFilename
    | some fn =>
      if fn == "" then .missingFilename
      else if !(strEndsWith fn ".mdx") then .invalidFileType
      else if strIncludes fn ".." || strIncludes fn "/" || strIncludes fn "\\" then
        .invalidFilename
      else if !fileExists then .fileNotFound
      else .deleted

/-- HTTP status attached to each outcome in the handler. -/
def statusOf : DeleteOutcome → Nat
  | .unauthorized => 401
  | .missingFilename => 400
  | .invalidFileType => 400
  | .invalidFilename => 400
  | .fileNotFound => 404
  | .deleted => 200

/-- `fs.unlinkSync` runs only on the `deleted` outcome. -/
def deletesFile : DeleteOutcome → Bool
  | .deleted => true
  | _ => false

end SiteAuth

namespace SiteAuth

/-! ### Helper lemmas -/

lemma findEntry_filter_self (st : List RateLimitEntry) (a : String) :
    findEntry (st.filter (fun e => !(e.ip == a))) a = none := by
  rw [findEntry, List.find?_eq_none]
  intro x hx
  rcases List.mem_filter.mp hx with ⟨-, hx2⟩
  simpa using hx2

lemma findEntry_some_ip {st : List RateLimitEntry} {a : String}
    {e : RateLimitEntry} (h : findEntry st a = some e) : e.ip = a := by
  simp only [findEntry] at h
  have h2 := List.find?_some h
  exact eq_of_beq (by simpa using h2)

lemma findEntry_append_self {st : List RateLimitEntry} {a : String}
    (h : findEntry st a = none) (e : RateLimitEntry) (hip : e.ip = a) :
    findEntry (st ++ [e]) a = some e := by
  simp only [findEntry] at h ⊢
  rw [List.find?_append, h]
  simp [hip]

lemma updateEntry_append {st : List RateLimitEntry} {a : String}
    (h : findEntry st a = none) (e e' : RateLimitEntry) (hip : e.ip = a) :
    updateEntry (st ++ [e]) a e' = st ++ [e'] := by
  induction st with
  | nil => simp [updateEntry, hip]
  | cons x xs ih =>
    have hx : (x.ip == a) = false := by
      have hh := List.find?_eq_none.mp
        (show List.find? (fun e => e.ip == a) (x :: xs) = none from h) x (by simp)
      simpa using hh
    have h' : findEntry xs a = none := by
      rw [findEntry, List.find?_eq_none]
      intro y hy
      exact List.find?_eq_none.mp
        (show List.find? (fun e => e.ip == a) (x :: xs) = none from h) y
        (List.mem_cons_of_mem _ hy)
    simp [updateEntry, hx, ih h']

lemma findEntry_updateEntry_self {st : List RateLimitEntry} {a : String}
    {e : RateLimitEntry} (h : findEntry st a = some e)
    (e' : RateLimitEntry) (hip : e'.ip = a) :
    findEntry (updateEntry st a e') a = some e' := by
  induction st with
  | nil => simp [findEntry] at h
  | cons x xs ih =>
    by_cases hx : (x.ip == a) = true
    · show List.find? (fun e => e.ip == a) (updateEntry (x :: xs) a e') = some e'
      simp only [updateEntry]
      rw [if_pos hx]
      exact List.find?_cons_of_pos (p := fun y : RateLimitEntry => y.ip == a) _ (by simp [hip])
    · have h' : findEntry xs a = some e := by
        have h2 : List.find? (fun e => e.ip == a) (x :: xs) = some e := h
        rwa [List.find?_cons_of_neg (p := fun y : RateLimitEntry => y.ip == a) _ hx] at h2
      show List.find? (fun e => e.ip == a) (updateEntry (x :: xs) a e') = some e'
      simp only [updateEntry]
      rw [if_neg hx, List.find?_cons_of_neg (p := fun y : RateLimitEntry => y.ip == a) _ hx]
      exact ih h'

lemma ceilMinutes_pos {ms : Int} (h : 1 ≤ ms) : 1 ≤ ceilMinutes ms := by
  unfold ceilMinutes
  omega

/-! ### Claims about the rate limiter -/

/-- C8: `recordSuccessfulLogin` deletes the address's entry outright, so
`isBlocked` immediately afterwards reports not-blocked and
`getRateLimitInfo` reports `attempts = 0` with `attemptsLeft =
MAX_ATTEMPTS`, whatever failures were recorded before. -/
theorem C8_success_clears_entry (st : List RateLimitEntry) (a : String)
    (now : Int) :
    findEntry (recordSuccessfulLogin st a) a = none ∧
    (isBlocked (recordSuccessfulLogin st a) a now).1 = ⟨false, none⟩ ∧
    getRateLimitInfo (recordSuccessfulLogin st a) a now =
      ⟨0, MAX_ATTEMPTS, WINDOW_MS, (MAX_ATTEMPTS : Int), none⟩ := by
  have h : findEntry (recordSuccessfulLogin st a) a = none :=
    findEntry_filter_self st a
  refine ⟨h, ?_, ?_⟩
  · simp [isBlocked, h]
  · simp [getRateLimitInfo, h]

/-- C2: `isBlocked` on an entry whose `blockedUntil` is in the future
reports blocked with a strictly positive remaining-minutes estimate and
leaves the store alone; on an elapsed `blockedUntil` it prunes the
address's entry and reports not-blocked; with no entry, or an entry
without `blockedUntil`, it reports not-blocked and leaves the store
alone. -/
theorem C2_isBlocked_cases (st : List RateLimitEntry) (a : String)
    (now : Int) :
    (∀ e b, findEntry st a = some e → e.blockedUntil = some b → now < b →
      isBlocked st a now = (⟨true, some (ceilMinutes (b - now))⟩, st) ∧
        1 ≤ ceilMinutes (b - now)) ∧
    (∀ e b, findEntry st a = some e → e.blockedUntil = some b → b ≤ now →
      isBlocked st a now =
        (⟨false, none⟩, st.filter (fun x => !(x.ip == a)))) ∧
    (findEntry st a = none → isBlocked st a now = (⟨false, none⟩, st)) ∧
    (∀ e, findEntry st a = some e → e.blockedUntil = none →
      isBlocked st a now = (⟨false, none⟩, st)) := by
  refine ⟨?_, ?_, ?_, ?_⟩
  · intro e b hf hb hfut
    constructor
    · simp [isBlocked, hf, hb, hfut]
    · exact ceilMinutes_pos (by omega)
  · intro e b hf hb helapsed
    simp [isBlocked, hf, hb, show ¬ now < b by omega]
  · intro hf
    simp [isBlocked, hf]
  · intro e hf hb
    simp [isBlocked, hf, hb]

/-- C10: one successful login lifts an active block: if the entry's
`blockedUntil` is still in the future (`isBlocked` reports blocked),
then after `recordSuccessfulLogin` the very same `isBlocked` check
reports not-blocked. -/
theorem C10_success_lifts_active_block (st : List RateLimitEntry)
    (a : String) (now : Int) (e : RateLimitEntry) (b : Int)
    (hf : findEntry st a = some e) (hb : e.blockedUntil = some b)
    (hfut : now < b) :
    (isBlocked st a now).1.blocked = true ∧
    (isBlocked (recordSuccessfulLogin st a) a now).1 = ⟨false, none⟩ := by
  constructor
  · simp [isBlocked, hf, hb, hfut]
  · have h : findEntry (recordSuccessfulLogin st a) a = none :=
      findEntry_filter_self st a
    simp [isBlocked, h]

/-- C9: a missing backing file, or one whose content fails to parse,
yields the empty collection from both `readJsonFile` and
`readRateLimitData` — no exception propagates to the consumer. -/
theorem C9_reads_degrade_to_empty
    (parseU : String → Except String (List User))
    (parseS : String → Except String (List Session))
    (parseR : String → Except String (List RateLimitEntry))
    (d : String) :
    readJsonFile parseU .absent = [] ∧
    readJsonFile parseS .absent = [] ∧
    readRateLimitData parseR .absent = [] ∧
    (∀ msg, parseU d = .error msg → readJsonFile parseU (.present d) = []) ∧
    (∀ msg, parseS d = .error msg → readJsonFile parseS (.present d) = []) ∧
    (∀ msg, parseR d = .error msg →
      readRateLimitData parseR (.present d) = []) := by
  refine ⟨rfl, rfl, rfl, ?_, ?_, ?_⟩
  · intro msg h; simp [readJsonFile, h]
  · intro msg h; simp [readJsonFile, h]
  · intro msg h; simp [readRateLimitData, h]

/-- C3: a failure recorded when the entry's `firstAttempt` predates
`now - WINDOW_MS` resets the window: the stored entry afterwards has
`attempts = 1`, `firstAttempt = lastAttempt = now` and no
`blockedUntil`, and the call reports not-blocked with `attemptsLeft =
4`. -/
theorem C3_window_expiry_resets (st : List RateLimitEntry) (a : String)
    (now : Int) (e : RateLimitEntry) (hf : findEntry st a = some e)
    (hw : e.firstAttempt < now - WINDOW_MS) :
    findEntry (recordFailedAttempt st a now).2 a =
      some { e with attempts := 1, firstAttempt := now, lastAttempt := now,
                    blockedUntil := none } ∧
    (recordFailedAttempt st a now).1 = ⟨false, some 4, none⟩ := by
  have hip : e.ip = a := findEntry_some_ip hf
  constructor
  · simp only [recordFailedAttempt, hf, if_pos hw]
    exact findEntry_updateEntry_self hf _ hip
  · simp [recordFailedAttempt, hf, if_pos hw, attemptOutcome, MAX_ATTEMPTS]

end SiteAuth

namespace SiteAuth

/-! ### Claims about the credential and session store -/

/-- C4: duplicate-username rejection and preservation of username
uniqueness by `createUser`: a call with an existing username returns
`false` and leaves the store unchanged; a pairwise-distinct store stays
pairwise distinct; and a second `createUser` with the same username
always fails. -/
theorem C4_createUser_username_unique (users : List User)
    (name pw role newId : String) (now : Int) :
    ((∃ u ∈ users, u.username = name) →
      createUser users name pw role newId now = (false, users)) ∧
    (users.Pairwise (fun u v => u.username ≠ v.username) →
      ((createUser users name pw role newId now).2).Pairwise
        (fun u v => u.username ≠ v.username)) ∧
    (∀ pw2 role2 id2 now2,
      (createUser (createUser users name pw role newId now).2
        name pw2 role2 id2 now2).1 = false) := by
  refine ⟨?_, ?_, ?_⟩
  · rintro ⟨u, hu, hname⟩
    rcases hfind : users.find? (fun u => u.username == name) with _ | u'
    · exact absurd (List.find?_eq_none.mp hfind u hu) (by simp [hname])
    · simp [createUser, hfind]
  · intro hP
    rcases hfind : users.find? (fun u => u.username == name) with _ | u'
    · simp only [createUser, hfind]
      rw [List.pairwise_append]
      refine ⟨hP, by simp, ?_⟩
      intro u hu v hv
      have hv' : v = ⟨newId, name, pw, role, now, some now⟩ := by
        simpa using hv
      subst hv'
      have := List.find?_eq_none.mp hfind u hu
      simpa using this
    · simp only [createUser, hfind]
      exact hP
  · intro pw2 role2 id2 now2
    rcases hfind : users.find? (fun u => u.username == name) with _ | u'
    · have happ : (users ++ [(⟨newId, name, pw, role, now, some now⟩ : User)]).find?
          (fun u => u.username == name) =
          some ⟨newId, name, pw, role, now, some now⟩ := by
        rw [List.find?_append, hfind]
        simp
      simp [createUser, hfind, happ]
    · simp [createUser, hfind]

lemma find?_token_unique (sessions : List Session) (s : Session)
    (hU : sessions.Pairwise (fun x y => x.token ≠ y.token))
    (hs : s ∈ sessions) :
    sessions.find? (fun x => x.token == s.token) = some s := by
  induction sessions with
  | nil => cases hs
  | cons x xs ih =>
    rcases List.mem_cons.mp hs with rfl | hs'
    · exact List.find?_cons_of_pos _ (by simp)
    · have hneq : x.token ≠ s.token := (List.pairwise_cons.mp hU).1 s hs'
      rw [List.find?_cons_of_neg (p := fun y : Session => y.token == s.token) _
        (by simpa using hneq)]
      exact ih (List.pairwise_cons.mp hU).2 hs'

/-- C5 counterexample: at the instant `now = expiresAt` the code still
returns the session, so "returns s exactly when now < expiresAt" is
false — the strict-future condition of the claim does not match the
code's `expiresAt < now` expiry test. -/
theorem C5_counterexample :
    (getSessionByToken [⟨"sid", "uid", "tok", 100, 0⟩] "tok" 100).1 =
      some ⟨"sid", "uid", "tok", 100, 0⟩ ∧ ¬ ((100 : Int) < 100) := by
  exact ⟨by decide, by decide⟩

/-- C5 (amended): for a session `s` in a store with pairwise-distinct
tokens, `getSessionByToken s.token` returns `s` exactly when
`now ≤ s.expiresAt`; when `s.expiresAt < now` it deletes the session
from the persisted collection as a side effect of the read and returns
`none`; otherwise the collection is untouched. -/
theorem C5_lazy_expiry (sessions : List Session) (s : Session) (now : Int)
    (hU : sessions.Pairwise (fun x y => x.token ≠ y.token))
    (hs : s ∈ sessions) :
    ((getSessionByToken sessions s.token now).1 = some s ↔
      now ≤ s.expiresAt) ∧
    (s.expiresAt < now →
      getSessionByToken sessions s.token now =
        (none, deleteSession sessions s.token)) ∧
    (now ≤ s.expiresAt →
      getSessionByToken sessions s.token now = (some s, sessions)) := by
  have hf := find?_token_unique sessions s hU hs
  refine ⟨?_, ?_, ?_⟩
  · by_cases hexp : s.expiresAt < now
    · simp [getSessionByToken, hf, hexp]
    · simp [getSessionByToken, hf, hexp]
      omega
  · intro hexp
    simp [getSessionByToken, hf, if_pos hexp]
  · intro hle
    simp [getSessionByToken, hf, show ¬ s.expiresAt < now by omega]

end SiteAuth

namespace SiteAuth

/-! ### Claims about the content-deletion endpoint and tokens -/

/-- C6: past authentication, the endpoint answers 400 and deletes
nothing for every filename that does not end in `.mdx` or contains
`..`, `/` or `\`; in particular the three traversal examples are
rejected, and `post-1.mdx` passes validation (reaching deletion when
the file exists). -/
theorem C6_filename_validation (fileExists : Bool) :
    (∀ fn : String,
      (strEndsWith fn ".mdx" = false ∨ strIncludes fn ".." = true ∨
        strIncludes fn "/" = true ∨ strIncludes fn "\\" = true) →
      statusOf (deleteContentPost true (some fn) fileExists) = 400 ∧
      deletesFile (deleteContentPost true (some fn) fileExists) = false) ∧
    deleteContentPost true (some "../../etc/passwd.mdx") fileExists =
      .invalidFilename ∧
    deleteContentPost true (some "a/b.mdx") fileExists = .invalidFilename ∧
    deleteContentPost true (some "a\\b.mdx") fileExists = .invalidFilename ∧
    validFilename "post-1.mdx" = true ∧
    deleteContentPost true (some "post-1.mdx") true = .deleted := by
  refine ⟨?_, ?_, ?_, ?_, by decide, by decide⟩
  · intro fn hbad
    by_cases h0 : (fn == "") = true
    · have hout : deleteContentPost true (some fn) fileExists =
          .missingFilename := by
        simp [deleteContentPost, h0]
      rw [hout]
      exact ⟨rfl, rfl⟩
    · by_cases h1 : strEndsWith fn ".mdx"
      · have h2 : (strIncludes fn ".." || strIncludes fn "/" ||
            strIncludes fn "\\") = true := by
          rcases hbad with h | h | h | h
          · rw [h1] at h
            cases h
          · simp [h]
          · simp [h]
          · simp [h]
        have hout : deleteContentPost true (some fn) fileExists =
            .invalidFilename := by
          simp [deleteContentPost, h0, h1, h2]
        rw [hout]
        exact ⟨rfl, rfl⟩
      · have hout : deleteContentPost true (some fn) fileExists =
            .invalidFileType := by
          simp [deleteContentPost, h0, h1]
        rw [hout]
        exact ⟨rfl, rfl⟩
  · cases fileExists <;> decide
  · cases fileExists <;> decide
  · cases fileExists <;> decide

/-- C7 counterexample: `verifyToken` does not fail distinctly — a token
with a bad signature and a lapsed-expiry token both come back as the
same `none` (the `try/catch` in the source discards the library's
error distinction). -/
theorem C7_counterexample :
    verifyToken ⟨(generateToken "u1" "admin" 0).payload, "other-secret"⟩ 0 =
      none ∧
    verifyToken (generateToken "u1" "admin" 0) 86400 = none ∧
    verifyToken ⟨(generateToken "u1" "admin" 0).payload, "other-secret"⟩ 0 =
      verifyToken (generateToken "u1" "admin" 0) 86400 := by
  refine ⟨by decide, by decide, by decide⟩

/-- C7 (amended): a freshly generated token verifies immediately to a
payload carrying the issuing `userId` and `username`; after the
embedded expiry has lapsed `verifyToken` returns `none`, and on a bad
signature it also returns `none` — the wrapper does not distinguish the
two failures, though the modelled library layer does (`expired` versus
`invalidToken`). -/
theorem C7_token_roundtrip (uid un : String) (t : Int) :
    verifyToken (generateToken uid un t) t =
      some ⟨uid, un, t, t + 24 * 60 * 60⟩ ∧
    (∀ now, t + 24 * 60 * 60 ≤ now →
      verifyToken (generateToken uid un t) now = none) ∧
    (∀ s now, s ≠ JWT_SECRET →
      verifyToken ⟨(generateToken uid un t).payload, s⟩ now = none) ∧
    (∀ now, t + 24 * 60 * 60 ≤ now →
      jwtVerifyLib (generateToken uid un t) JWT_SECRET now =
        .error .expired) ∧
    (∀ s now, s ≠ JWT_SECRET →
      jwtVerifyLib ⟨(generateToken uid un t).payload, s⟩ JWT_SECRET now =
        .error .invalidToken) := by
  refine ⟨?_, ?_, ?_, ?_, ?_⟩
  · simp [verifyToken, jwtVerifyLib, generateToken, jwtSign]
  · intro now h
    have hc : t + 86400 ≤ now := by omega
    simp [verifyToken, jwtVerifyLib, generateToken, jwtSign, hc]
  · intro s now hs
    simp [verifyToken, jwtVerifyLib, generateToken, jwtSign, hs]
  · intro now h
    have hc : t + 86400 ≤ now := by omega
    simp [jwtVerifyLib, generateToken, jwtSign, hc]
  · intro s now hs
    simp [jwtVerifyLib, generateToken, jwtSign, hs]

end SiteAuth

namespace SiteAuth

/-- One failed attempt recorded for an address whose (unique, appended)
entry is still within the window: the counter increments, `lastAttempt`
moves to `now`, and the block stamp appears once the counter reaches
`MAX_ATTEMPTS`. -/
lemma recordFailedAttempt_step {st : List RateLimitEntry} {a : String}
    (h0 : findEntry st a = none) (k : Nat) (f l now : Int)
    (bu : Option Int) (hw : ¬ f < now - WINDOW_MS) :
    recordFailedAttempt (st ++ [⟨a, k, f, l, bu⟩]) a now =
      (attemptOutcome ⟨a, k + 1, f, now,
         if MAX_ATTEMPTS ≤ k + 1 then some (now + BLOCK_DURATION_MS)
         else bu⟩,
       st ++ [⟨a, k + 1, f, now,
         if MAX_ATTEMPTS ≤ k + 1 then some (now + BLOCK_DURATION_MS)
         else bu⟩]) := by
  have hf := findEntry_append_self h0 ⟨a, k, f, l, bu⟩ rfl
  have hu := updateEntry_append h0 ⟨a, k, f, l, bu⟩
    ⟨a, k + 1, f, now,
      if MAX_ATTEMPTS ≤ k + 1 then some (now + BLOCK_DURATION_MS)
      else bu⟩ rfl
  simp only [recordFailedAttempt, hf, if_neg hw]
  rw [hu]

/-- C1: from a store with no entry for the address, five failures all
within the 15-minute window of the first make the fifth call report
`blocked = true` (with the block stamp), while the fourth call still
reports `blocked = false` with `attemptsLeft = 1`. -/
theorem C1_five_failures_block (st : List RateLimitEntry) (a : String)
    (t1 t2 t3 t4 t5 : Int) (h0 : findEntry st a = none)
    (h2 : t2 ≤ t1 + WINDOW_MS) (h3 : t3 ≤ t1 + WINDOW_MS)
    (h4 : t4 ≤ t1 + WINDOW_MS) (h5 : t5 ≤ t1 + WINDOW_MS) :
    (recordFailedAttempt (recordFailedAttempt (recordFailedAttempt
        (recordFailedAttempt st a t1).2 a t2).2 a t3).2 a t4).1 =
      ⟨false, some 1, none⟩ ∧
    (recordFailedAttempt (recordFailedAttempt (recordFailedAttempt
        (recordFailedAttempt (recordFailedAttempt st a t1).2 a t2).2
        a t3).2 a t4).2 a t5).1 =
      ⟨true, none, some (t5 + BLOCK_DURATION_MS)⟩ := by
  have q1 : (recordFailedAttempt st a t1).2 = st ++ [⟨a, 1, t1, t1, none⟩] := by
    simp only [recordFailedAttempt, h0]
  have q2 : recordFailedAttempt (st ++ [⟨a, 1, t1, t1, none⟩]) a t2 =
      (attemptOutcome ⟨a, 2, t1, t2, none⟩, st ++ [⟨a, 2, t1, t2, none⟩]) := by
    rw [recordFailedAttempt_step h0 1 t1 t1 t2 none (by omega)]
    norm_num [MAX_ATTEMPTS]
  have q3 : recordFailedAttempt (st ++ [⟨a, 2, t1, t2, none⟩]) a t3 =
      (attemptOutcome ⟨a, 3, t1, t3, none⟩, st ++ [⟨a, 3, t1, t3, none⟩]) := by
    rw [recordFailedAttempt_step h0 2 t1 t2 t3 none (by omega)]
    norm_num [MAX_ATTEMPTS]
  have q4 : recordFailedAttempt (st ++ [⟨a, 3, t1, t3, none⟩]) a t4 =
      (attemptOutcome ⟨a, 4, t1, t4, none⟩, st ++ [⟨a, 4, t1, t4, none⟩]) := by
    rw [recordFailedAttempt_step h0 3 t1 t3 t4 none (by omega)]
    norm_num [MAX_ATTEMPTS]
  have q5 : recordFailedAttempt (st ++ [⟨a, 4, t1, t4, none⟩]) a t5 =
      (attemptOutcome ⟨a, 5, t1, t5, some (t5 + BLOCK_DURATION_MS)⟩,
       st ++ [⟨a, 5, t1, t5, some (t5 + BLOCK_DURATION_MS)⟩]) := by
    rw [recordFailedAttempt_step h0 4 t1 t4 t5 none (by omega)]
    norm_num [MAX_ATTEMPTS]
  constructor
  · simp only [q1, q2, q3, q4]
    norm_num [attemptOutcome, MAX_ATTEMPTS]
  · simp only [q1, q2, q3, q4, q5]
    norm_num [attemptOutcome, MAX_ATTEMPTS]

end SiteAuth

namespace SiteAuth

/-! ### Concrete witnesses -/

/-- Witness for C1 at a concrete address and times. -/
theorem C1_witness :
    (recordFailedAttempt (recordFailedAttempt (recordFailedAttempt
        (recordFailedAttempt [] "10.0.0.5" 0).2 "10.0.0.5" 60000).2
        "10.0.0.5" 120000).2 "10.0.0.5" 180000).1 =
      ⟨false, some 1, none⟩ ∧
    (recordFailedAttempt (recordFailedAttempt (recordFailedAttempt
        (recordFailedAttempt (recordFailedAttempt [] "10.0.0.5" 0).2
        "10.0.0.5" 60000).2 "10.0.0.5" 120000).2 "10.0.0.5" 180000).2
        "10.0.0.5" 240000).1 =
      ⟨true, none, some (240000 + BLOCK_DURATION_MS)⟩ :=
  C1_five_failures_block [] "10.0.0.5" 0 60000 120000 180000 240000
    (by decide) (by decide) (by decide) (by decide) (by decide)

/-- Witness for C2 at a concrete blocked entry (30-minute block checked
one minute in). -/
theorem C2_witness :
    isBlocked [⟨"10.0.0.5", 5, 0, 0, some 1800000⟩] "10.0.0.5" 60000 =
      (⟨true, some (ceilMinutes (1800000 - 60000))⟩,
       [⟨"10.0.0.5", 5, 0, 0, some 1800000⟩]) ∧
    1 ≤ ceilMinutes (1800000 - 60000) :=
  (C2_isBlocked_cases [⟨"10.0.0.5", 5, 0, 0, some 1800000⟩]
      "10.0.0.5" 60000).1
    ⟨"10.0.0.5", 5, 0, 0, some 1800000⟩ 1800000 (by decide) rfl (by decide)

/-- Witness for C3: an entry from outside the window is reset to a
single fresh attempt. -/
theorem C3_witness :
    findEntry (recordFailedAttempt [⟨"10.0.0.5", 3, 0, 5, none⟩]
        "10.0.0.5" 1000000).2 "10.0.0.5" =
      some ⟨"10.0.0.5", 1, 1000000, 1000000, none⟩ ∧
    (recordFailedAttempt [⟨"10.0.0.5", 3, 0, 5, none⟩]
        "10.0.0.5" 1000000).1 = ⟨false, some 4, none⟩ :=
  C3_window_expiry_resets [⟨"10.0.0.5", 3, 0, 5, none⟩] "10.0.0.5" 1000000
    ⟨"10.0.0.5", 3, 0, 5, none⟩ (by decide) (by decide)

/-- Witness for C4 at a concrete one-user store: duplicate creation
fails, a fresh creation keeps usernames distinct, and repeating it
fails. -/
theorem C4_witness :
    createUser [⟨"id0", "admin", "h", "admin", 0, some 0⟩] "admin" "h2"
        "user" "id1" 5 =
      (false, [⟨"id0", "admin", "h", "admin", 0, some 0⟩]) ∧
    ((createUser [⟨"id0", "admin", "h", "admin", 0, some 0⟩] "alice" "h2"
        "user" "id1" 5).2).Pairwise (fun u v => u.username ≠ v.username) ∧
    (createUser (createUser [⟨"id0", "admin", "h", "admin", 0, some 0⟩]
        "alice" "h2" "user" "id1" 5).2 "alice" "p2" "user" "id2" 6).1 =
      false :=
  ⟨(C4_createUser_username_unique [⟨"id0", "admin", "h", "admin", 0, some 0⟩]
      "admin" "h2" "user" "id1" 5).1
      ⟨⟨"id0", "admin", "h", "admin", 0, some 0⟩, by simp, rfl⟩,
   (C4_createUser_username_unique [⟨"id0", "admin", "h", "admin", 0, some 0⟩]
      "alice" "h2" "user" "id1" 5).2.1 (by simp),
   (C4_createUser_username_unique [⟨"id0", "admin", "h", "admin", 0, some 0⟩]
      "alice" "h2" "user" "id1" 5).2.2 "p2" "user" "id2" 6⟩

/-- Witness for C5 at a concrete live session (checked before expiry). -/
theorem C5_witness :
    getSessionByToken [⟨"sid", "uid", "tok", 100, 0⟩] "tok" 50 =
      (some ⟨"sid", "uid", "tok", 100, 0⟩,
       [⟨"sid", "uid", "tok", 100, 0⟩]) :=
  (C5_lazy_expiry [⟨"sid", "uid", "tok", 100, 0⟩]
      ⟨"sid", "uid", "tok", 100, 0⟩ 50 (by simp) (by simp)).2.2 (by norm_num)

/-- Witness for C6: a non-`.mdx` filename is answered with a 400 and no
deletion happens. -/
theorem C6_witness :
    statusOf (deleteContentPost true (some "evil.txt") true) = 400 ∧
    deletesFile (deleteContentPost true (some "evil.txt") true) = false :=
  (C6_filename_validation true).1 "evil.txt" (Or.inl (by decide))

/-- Witness for C7: a token issued at time 0 verifies at time 0 and is
rejected a day plus later. -/
theorem C7_witness :
    verifyToken (generateToken "u1" "admin" 0) 0 =
      some ⟨"u1", "admin", 0, 0 + 24 * 60 * 60⟩ ∧
    verifyToken (generateToken "u1" "admin" 0) 90000 = none :=
  ⟨(C7_token_roundtrip "u1" "admin" 0).1,
   (C7_token_roundtrip "u1" "admin" 0).2.1 90000 (by norm_num)⟩

/-- Witness for C9 at a concrete failing parser. -/
theorem C9_witness :
    readJsonFile (fun _ => (.error "bad" : Except String (List User)))
      .absent = [] ∧
    readJsonFile (fun _ => (.error "bad" : Except String (List User)))
      (.present "not json") = [] ∧
    readRateLimitData (fun _ => .error "bad") (.present "not json") = [] :=
  ⟨(C9_reads_degrade_to_empty (fun _ => .error "bad") (fun _ => .error "bad")
      (fun _ => .error "bad") "not json").1,
   (C9_reads_degrade_to_empty (fun _ => .error "bad") (fun _ => .error "bad")
      (fun _ => .error "bad") "not json").2.2.2.1 "bad" rfl,
   (C9_reads_degrade_to_empty (fun _ => .error "bad") (fun _ => .error "bad")
      (fun _ => .error "bad") "not json").2.2.2.2.2 "bad" rfl⟩

/-- Witness for C10: a successful login at minute one of a 30-minute
block lifts it. -/
theorem C10_witness :
    (isBlocked [⟨"10.0.0.5", 5, 0, 0, some 1800000⟩] "10.0.0.5"
        60000).1.blocked = true ∧
    (isBlocked (recordSuccessfulLogin
        [⟨"10.0.0.5", 5, 0, 0, some 1800000⟩] "10.0.0.5") "10.0.0.5"
        60000).1 = ⟨false, none⟩ :=
  C10_success_lifts_active_block [⟨"10.0.0.5", 5, 0, 0, some 1800000⟩]
    "10.0.0.5" 60000 ⟨"10.0.0.5", 5, 0, 0, some 1800000⟩ 1800000
    (by decide) rfl (by decide)

end SiteAuth
